import Mathlib

/-!
Shallow embedding of the FBTPbot support-chat clients
(frontend/src/chat/ChatPage.tsx, frontend/src/widget/ChatWidget.tsx in its
legacy and clarification-aware versions, frontend/src/operator/OperatorPanel.tsx,
frontend/src/api/client.ts, FarmbazisAIIntegration.java), together with a
spec-modelled answering engine for the session-allocation contract.

Each React component is embedded as a pure state type plus step functions:
an async handler becomes a function from the pre-state and the outcome of its
network call to the post-state and the list of wire requests it issued.
-/

namespace FBTP

/-- Role of a chat turn, `'user' | 'assistant'`. -/
inductive Role where
  | user
  | assistant
deriving DecidableEq

/-- JavaScript truthiness of a nullable string: `null`/`undefined` and `""` are falsy. -/
def jsStr : Option String → Bool
  | none => false
  | some t => t ≠ ""

/-- The JS idiom `s || undefined`: a falsy string (null or empty) becomes `undefined`. -/
def orUndefined (s : Option String) : Option String :=
  if jsStr s then s else none

/-- JavaScript `String.prototype.trim`: strip leading and trailing whitespace. -/
def jsTrim (s : String) : String :=
  ⟨((s.toList.dropWhile Char.isWhitespace).reverse.dropWhile Char.isWhitespace).reverse⟩

/-- Whether a user-visible text suggests escalation, read as: it mentions the
operator (the Russian word "оператор" occurs in it). -/
def mentionsOperator (s : String) : Prop :=
  "оператор".toList <:+: s.toList

instance (s : String) : Decidable (mentionsOperator s) := by
  unfold mentionsOperator
  infer_instance

/-- One entry of `suggested_topics` (`{title, article_id, snippet}`). -/
structure SuggestedTopic where
  title : String
  article_id : String
  snippet : String
deriving DecidableEq

/-- Response classification of an assistant turn (`"answer" | "clarification"`). -/
inductive ResponseType where
  | answer
  | clarification
deriving DecidableEq

/-- Wire response of `POST /api/chat` (`ChatResponse` in client.ts, plus the
`response_type` / `suggested_topics` fields read by ChatPage and the
clarification-aware ChatWidget). -/
structure ChatResponse where
  answer : String
  session_id : String
  confidence : Rat
  needs_escalation : Bool
  source_articles : List String
  youtube_links : List String
  has_images : Bool
  response_type : ResponseType
  suggested_topics : Option (List SuggestedTopic)
deriving DecidableEq

/-- JSON body built by `ApiClient.sendMessage`: exactly a `message` field and a
`session_id` field (`sessionId || null`); there is no other field, in particular
no structured topic-selection field. -/
structure ChatRequest where
  message : String
  session_id : Option String
deriving DecidableEq

/-- JSON body built by `ApiClient.createEscalation`
(`{session_id, reason, contact_info}`). -/
structure EscalationRequest where
  session_id : String
  reason : Option String
  contact_info : Option String
deriving DecidableEq

/-- Wire response of `POST /api/escalation` (`EscalationResponse` in client.ts). -/
structure EscalationResponse where
  escalation_id : String
  status : String
  message : String
  position_in_queue : Nat
deriving DecidableEq

/-- Outcome of an awaited `api.sendMessage` call as observed in the `try`/`catch`:
either the parsed response or a thrown error (network failure or non-2xx). -/
inductive ChatOutcome where
  | success (r : ChatResponse)
  | failure
deriving DecidableEq

/-- Outcome of an awaited `api.createEscalation` call. -/
inductive EscOutcome where
  | success (r : EscalationResponse)
  | failure
deriving DecidableEq

end FBTP

namespace FBTP.ChatPage

/-- A transcript entry of ChatPage's `messages` state (`Message` in ChatPage.tsx). -/
structure Message where
  role : FBTP.Role
  content : String
  confidence : Option Rat := none
  needsEscalation : Option Bool := none
  youtubeLinks : Option (List String) := none
  sourceArticles : Option (List String) := none
  suggestedTopics : Option (List FBTP.SuggestedTopic) := none
  responseType : Option FBTP.ResponseType := none
deriving DecidableEq

/-- The React state of the ChatPage component. -/
structure State where
  messages : List Message
  input : String
  loading : Bool
  sessionId : Option String
  showEscalation : Bool
  escalationSent : Bool
  contactInfo : String
  escalationReason : String
deriving DecidableEq

/-- Synthetic assistant text appended by `sendMessage`'s catch block. -/
def sendErrorText : String :=
  "Ошибка обработки запроса. Попробуйте позже или обратитесь к оператору."

/-- Synthetic assistant text appended by `handleTopicSelect`'s catch block. -/
def topicErrorText : String :=
  "Ошибка обработки. Попробуйте позже."

/-- Synthetic assistant text appended by `handleEscalation`'s catch block. -/
def escalationErrorText : String :=
  "Не удалось создать заявку. Попробуйте ещё раз."

/-- The assistant `Message` ChatPage builds from a successful chat response
(`botMessage` in `sendMessage` / `handleTopicSelect`; note that
`response.suggested_topics || undefined` keeps an empty list, since an empty
array is truthy in JS). -/
def botMessageOf (r : FBTP.ChatResponse) : Message :=
  { role := .assistant,
    content := r.answer,
    confidence := some r.confidence,
    needsEscalation := some r.needs_escalation,
    youtubeLinks := some r.youtube_links,
    sourceArticles := some r.source_articles,
    suggestedTopics := r.suggested_topics,
    responseType := some r.response_type }

/-- ChatPage.sendMessage: guard on empty trimmed input or an in-flight call,
optimistic append of the user turn, then the success / catch continuation.
Returns the post-state and the chat requests issued. -/
def sendMessage (s : State) (out : FBTP.ChatOutcome) :
    State × List FBTP.ChatRequest :=
  let trimmed := FBTP.jsTrim s.input
  if trimmed = "" ∨ s.loading then (s, [])
  else
    let s1 : State :=
      { s with messages := s.messages ++ [{ role := .user, content := trimmed }],
               input := "",
               loading := true }
    let req : FBTP.ChatRequest := ⟨trimmed, FBTP.orUndefined s.sessionId⟩
    match out with
    | .success r =>
      let s2 : State :=
        { s1 with sessionId :=
            if FBTP.jsStr s1.sessionId then s1.sessionId else some r.session_id }
      let s3 : State := { s2 with messages := s2.messages ++ [botMessageOf r] }
      let s4 : State :=
        if r.needs_escalation ∧ r.response_type ≠ .clarification
        then { s3 with showEscalation := true } else s3
      ({ s4 with loading := false }, [req])
    | .failure =>
      let s2 : State :=
        { s1 with messages :=
            s1.messages ++ [{ role := .assistant, content := sendErrorText }] }
      ({ s2 with loading := false }, [req])

/-- ChatPage.handleTopicSelect: clicking the topic button with 0-based index
`topicIndex` sends the decimal string of `topicIndex + 1` as an ordinary message. -/
def handleTopicSelect (s : State) (topicIndex : Nat) (out : FBTP.ChatOutcome) :
    State × List FBTP.ChatRequest :=
  if s.loading then (s, [])
  else
    let text := Nat.repr (topicIndex + 1)
    let s1 : State :=
      { s with messages := s.messages ++ [{ role := .user, content := text }],
               loading := true }
    let req : FBTP.ChatRequest := ⟨text, FBTP.orUndefined s.sessionId⟩
    match out with
    | .success r =>
      let s2 : State :=
        { s1 with sessionId :=
            if FBTP.jsStr s1.sessionId then s1.sessionId else some r.session_id }
      let s3 : State := { s2 with messages := s2.messages ++ [botMessageOf r] }
      let s4 : State :=
        if r.needs_escalation ∧ r.response_type ≠ .clarification
        then { s3 with showEscalation := true } else s3
      ({ s4 with loading := false }, [req])
    | .failure =>
      let s2 : State :=
        { s1 with messages :=
            s1.messages ++ [{ role := .assistant, content := topicErrorText }] }
      ({ s2 with loading := false }, [req])

/-- ChatPage.handleEscalation: submit the escalation form
(`reason`/`contact_info` use the `x || undefined` idiom); on success mark the
one-shot `escalationSent` flag and hide the form. -/
def handleEscalation (s : State) (out : FBTP.EscOutcome) :
    State × List FBTP.EscalationRequest :=
  if ¬ FBTP.jsStr s.sessionId then (s, [])
  else
    let req : FBTP.EscalationRequest :=
      ⟨s.sessionId.getD "",
       if s.escalationReason = "" then none else some s.escalationReason,
       if s.contactInfo = "" then none else some s.contactInfo⟩
    match out with
    | .success r =>
      let okText : String := "✅ " ++ r.message
      let msgs := s.messages ++ [{ role := .assistant, content := okText }]
      ({ s with messages := msgs, escalationSent := true, showEscalation := false },
       [req])
    | .failure =>
      let msgs := s.messages ++ [{ role := .assistant, content := escalationErrorText }]
      ({ s with messages := msgs }, [req])

/-- Visibility of the escalation form block:
`{showEscalation && !escalationSent && (...)}`. -/
def escalationFormVisible (s : State) : Bool :=
  s.showEscalation && !s.escalationSent

end FBTP.ChatPage

namespace FBTP.ChatWidget

/-- A transcript entry of the clarification-aware ChatWidget's `messages` state. -/
structure Message where
  role : FBTP.Role
  content : String
  youtubeLinks : Option (List String) := none
  needsEscalation : Option Bool := none
  suggestedTopics : Option (List FBTP.SuggestedTopic) := none
  responseType : Option FBTP.ResponseType := none
deriving DecidableEq

/-- The React state of the clarification-aware ChatWidget component. -/
structure State where
  isOpen : Bool
  messages : List Message
  input : String
  loading : Bool
  sessionId : Option String
  unread : Nat
deriving DecidableEq

/-- Synthetic auto-escalation hint appended by the widget's `sendMessage` after
a `needs_escalation` answer response. -/
def escalationHintText : String :=
  "💡 Ответ не найден. Свяжитесь с оператором или задайте вопрос иначе."

/-- Synthetic assistant text appended by the widget's catch blocks. -/
def sendErrorText : String :=
  "Ошибка соединения. Попробуйте позже."

/-- The assistant `Message` the widget builds from a successful chat response. -/
def botMsgOf (r : FBTP.ChatResponse) : Message :=
  { role := .assistant,
    content := r.answer,
    youtubeLinks := some r.youtube_links,
    needsEscalation := some r.needs_escalation,
    suggestedTopics := r.suggested_topics,
    responseType := some r.response_type }

/-- ChatWidget.sendMessage (clarification-aware version): guard, optimistic user
turn, bot turn, unread counter, then the auto-escalation hint — suppressed for
clarification responses. -/
def sendMessage (s : State) (out : FBTP.ChatOutcome) :
    State × List FBTP.ChatRequest :=
  let trimmed := FBTP.jsTrim s.input
  if trimmed = "" ∨ s.loading then (s, [])
  else
    let s1 : State :=
      { s with messages := s.messages ++ [{ role := .user, content := trimmed }],
               input := "",
               loading := true }
    let req : FBTP.ChatRequest := ⟨trimmed, FBTP.orUndefined s.sessionId⟩
    match out with
    | .success r =>
      let s2 : State :=
        { s1 with sessionId :=
            if FBTP.jsStr s1.sessionId then s1.sessionId else some r.session_id }
      let s3 : State := { s2 with messages := s2.messages ++ [botMsgOf r] }
      let s4 : State := if !s3.isOpen then { s3 with unread := s3.unread + 1 } else s3
      let s5 : State :=
        if r.needs_escalation ∧ r.session_id ≠ "" ∧ r.response_type ≠ .clarification
        then { s4 with messages :=
                 s4.messages ++ [{ role := .assistant, content := escalationHintText }] }
        else s4
      ({ s5 with loading := false }, [req])
    | .failure =>
      let msgs := s1.messages ++ [{ role := .assistant, content := sendErrorText }]
      ({ s1 with messages := msgs, loading := false }, [req])

/-- ChatWidget.handleTopicSelect: sends the decimal string of the 1-based topic
index as an ordinary message; no auto-escalation hint on this path. -/
def handleTopicSelect (s : State) (topicIndex : Nat) (out : FBTP.ChatOutcome) :
    State × List FBTP.ChatRequest :=
  if s.loading then (s, [])
  else
    let text := Nat.repr (topicIndex + 1)
    let s1 : State :=
      { s with messages := s.messages ++ [{ role := .user, content := text }],
               loading := true }
    let req : FBTP.ChatRequest := ⟨text, FBTP.orUndefined s.sessionId⟩
    match out with
    | .success r =>
      let s2 : State :=
        { s1 with sessionId :=
            if FBTP.jsStr s1.sessionId then s1.sessionId else some r.session_id }
      let s3 : State := { s2 with messages := s2.messages ++ [botMsgOf r] }
      ({ s3 with loading := false }, [req])
    | .failure =>
      let msgs := s1.messages ++ [{ role := .assistant, content := sendErrorText }]
      ({ s1 with messages := msgs, loading := false }, [req])

/-- ChatWidget.handleEscalation: `createEscalation(sessionId)` with no reason or
contact info, and no one-shot flag of any kind. -/
def handleEscalation (s : State) (out : FBTP.EscOutcome) :
    State × List FBTP.EscalationRequest :=
  if ¬ FBTP.jsStr s.sessionId then (s, [])
  else
    let req : FBTP.EscalationRequest := ⟨s.sessionId.getD "", none, none⟩
    match out with
    | .success r =>
      let okText : String := "✅ " ++ r.message
      ({ s with messages := s.messages ++ [{ role := .assistant, content := okText }] },
       [req])
    | .failure => (s, [req])

/-- Per-message escalation button of the clarification-aware widget:
`{msg.needsEscalation && msg.responseType !== 'clarification' && (<button ...>)}`. -/
def escalationButtonShown (m : Message) : Bool :=
  m.needsEscalation.getD false && m.responseType ≠ some .clarification

end FBTP.ChatWidget

namespace FBTP.LegacyWidget

/-- A transcript entry of the legacy ChatWidget
(src/frontend/src/widget/ChatWidget.tsx), which predates clarification support. -/
structure Message where
  role : FBTP.Role
  content : String
  youtubeLinks : Option (List String) := none
  needsEscalation : Option Bool := none
deriving DecidableEq

/-- The React state of the legacy ChatWidget component. -/
structure State where
  isOpen : Bool
  messages : List Message
  input : String
  loading : Bool
  sessionId : Option String
  unread : Nat
deriving DecidableEq

/-- Synthetic auto-escalation hint appended by the legacy widget's `sendMessage`
whenever the response has `needs_escalation` set (no clarification check). -/
def escalationHintText : String :=
  "💡 Я не нашёл точного ответа. Нажмите кнопку ниже, чтобы связаться с оператором, или задайте вопрос иначе."

/-- Synthetic assistant text appended by the legacy widget's catch block. -/
def sendErrorText : String :=
  "Ошибка соединения. Попробуйте позже."

/-- The assistant `Message` the legacy widget builds from a successful response;
the `response_type` and `suggested_topics` wire fields are ignored. -/
def botMsgOf (r : FBTP.ChatResponse) : Message :=
  { role := .assistant,
    content := r.answer,
    youtubeLinks := some r.youtube_links,
    needsEscalation := some r.needs_escalation }

/-- Legacy ChatWidget.sendMessage: appends the auto-escalation hint whenever
`response.needs_escalation && response.session_id`, with no regard for the
response type. -/
def sendMessage (s : State) (out : FBTP.ChatOutcome) :
    State × List FBTP.ChatRequest :=
  let trimmed := FBTP.jsTrim s.input
  if trimmed = "" ∨ s.loading then (s, [])
  else
    let s1 : State :=
      { s with messages := s.messages ++ [{ role := .user, content := trimmed }],
               input := "",
               loading := true }
    let req : FBTP.ChatRequest := ⟨trimmed, FBTP.orUndefined s.sessionId⟩
    match out with
    | .success r =>
      let s2 : State :=
        { s1 with sessionId :=
            if FBTP.jsStr s1.sessionId then s1.sessionId else some r.session_id }
      let s3 : State := { s2 with messages := s2.messages ++ [botMsgOf r] }
      let s4 : State := if !s3.isOpen then { s3 with unread := s3.unread + 1 } else s3
      let s5 : State :=
        if r.needs_escalation ∧ r.session_id ≠ ""
        then { s4 with messages :=
                 s4.messages ++ [{ role := .assistant, content := escalationHintText }] }
        else s4
      ({ s5 with loading := false }, [req])
    | .failure =>
      let msgs := s1.messages ++ [{ role := .assistant, content := sendErrorText }]
      ({ s1 with messages := msgs, loading := false }, [req])

/-- Legacy ChatWidget.handleEscalation: `createEscalation(sessionId)`, no
one-shot flag; errors are swallowed. -/
def handleEscalation (s : State) (out : FBTP.EscOutcome) :
    State × List FBTP.EscalationRequest :=
  if ¬ FBTP.jsStr s.sessionId then (s, [])
  else
    let req : FBTP.EscalationRequest := ⟨s.sessionId.getD "", none, none⟩
    match out with
    | .success r =>
      let okText : String := "✅ " ++ r.message
      ({ s with messages := s.messages ++ [{ role := .assistant, content := okText }] },
       [req])
    | .failure => (s, [req])

/-- Per-message escalation button of the legacy widget:
`{msg.needsEscalation && (<button ...>)}` — shown for any turn flagged
`needs_escalation`. -/
def escalationButtonShown (m : Message) : Bool :=
  m.needsEscalation.getD false

end FBTP.LegacyWidget

namespace FBTP

/-- What one transcript message renders to, for the pieces that depend on the
message's own fields: role marker, markdown content, the YouTube-link block
(absent ⇔ empty list), the numbered topic buttons of the clarification block,
and the per-message escalation button (ChatPage has none). -/
structure MessageRender where
  role : Role
  content : String
  youtubeLinks : List String
  topicButtons : List String
  escalationButton : Bool
deriving DecidableEq

/-- Labels of the topic buttons, `"{j + 1}. {topic.title}"` in render order. -/
def topicButtonLabels (ts : List SuggestedTopic) : List String :=
  (List.range ts.length).zipWith (fun j t => Nat.repr (j + 1) ++ ". " ++ t.title) ts

end FBTP

namespace FBTP.ChatPage

/-- Render of one ChatPage message: the clarification block is shown only when
`msg.responseType === 'clarification' && msg.suggestedTopics &&
msg.suggestedTopics.length > 0`; ChatPage has no per-message escalation button
(its escalation offer is the page-level panel). -/
def renderMessage (m : Message) : FBTP.MessageRender :=
  { role := m.role,
    content := m.content,
    youtubeLinks := m.youtubeLinks.getD [],
    topicButtons :=
      if m.responseType = some .clarification ∧ (m.suggestedTopics.getD []) ≠ []
      then FBTP.topicButtonLabels (m.suggestedTopics.getD []) else [],
    escalationButton := false }

end FBTP.ChatPage

namespace FBTP.ChatWidget

/-- Render of one clarification-aware widget message: topic buttons under the
same condition as ChatPage, plus the per-message escalation button gated on
`msg.needsEscalation && msg.responseType !== 'clarification'`. -/
def renderMessage (m : Message) : FBTP.MessageRender :=
  { role := m.role,
    content := m.content,
    youtubeLinks := m.youtubeLinks.getD [],
    topicButtons :=
      if m.responseType = some .clarification ∧ (m.suggestedTopics.getD []) ≠ []
      then FBTP.topicButtonLabels (m.suggestedTopics.getD []) else [],
    escalationButton := escalationButtonShown m }

end FBTP.ChatWidget

namespace FBTP.LegacyWidget

/-- Render of one legacy widget message: no clarification block exists in this
version, and the escalation button is gated on `msg.needsEscalation` alone. -/
def renderMessage (m : Message) : FBTP.MessageRender :=
  { role := m.role,
    content := m.content,
    youtubeLinks := m.youtubeLinks.getD [],
    topicButtons := [],
    escalationButton := escalationButtonShown m }

end FBTP.LegacyWidget

namespace FBTP.ChatPage

/-- A user-interface event of the ChatPage component. The escalation submit and
dismiss buttons exist only inside the escalation form block, so those events
are no-ops unless the form is visible. -/
inductive Event where
  | typeInput (t : String)
  | send (out : FBTP.ChatOutcome)
  | topicSelect (i : Nat) (out : FBTP.ChatOutcome)
  | escalationSubmit (out : FBTP.EscOutcome)
  | escalationDismiss
  | typeContact (t : String)
  | typeReason (t : String)
deriving DecidableEq

/-- Requests emitted by one ChatPage step. -/
structure Emitted where
  chat : List FBTP.ChatRequest := []
  escalation : List FBTP.EscalationRequest := []
deriving DecidableEq

/-- One ChatPage step: dispatch an event to its handler. -/
def step (s : State) (e : Event) : State × Emitted :=
  match e with
  | .typeInput t => ({ s with input := t }, {})
  | .send out =>
    let (s', reqs) := sendMessage s out
    (s', { chat := reqs })
  | .topicSelect i out =>
    let (s', reqs) := handleTopicSelect s i out
    (s', { chat := reqs })
  | .escalationSubmit out =>
    if escalationFormVisible s then
      let (s', reqs) := handleEscalation s out
      (s', { escalation := reqs })
    else (s, {})
  | .escalationDismiss =>
    if escalationFormVisible s then ({ s with showEscalation := false }, {})
    else (s, {})
  | .typeContact t => ({ s with contactInfo := t }, {})
  | .typeReason t => ({ s with escalationReason := t }, {})

/-- Run a sequence of ChatPage events, collecting all emitted requests. -/
def run (s : State) (es : List Event) : State × Emitted :=
  match es with
  | [] => (s, {})
  | e :: rest =>
    let (s1, em1) := step s e
    let (s2, em2) := run s1 rest
    (s2, { chat := em1.chat ++ em2.chat,
           escalation := em1.escalation ++ em2.escalation })

end FBTP.ChatPage

namespace FBTP

/-- One entry of an escalation ticket's `chat_history` (`ChatMessage` in client.ts). -/
structure ChatHistoryEntry where
  role : Role
  content : String
  timestamp : Option String := none
deriving DecidableEq

/-- A ticket as listed by `GET /api/operator/escalations`
(`EscalationDetail` in client.ts). -/
structure EscalationDetail where
  escalation_id : String
  session_id : String
  status : String
  reason : Option String
  contact_info : Option String
  chat_history : List ChatHistoryEntry
  created_at : String
  updated_at : Option String
  operator_notes : Option String
deriving DecidableEq

/-- Body of a successful `listEscalations` response. -/
structure EscalationListBody where
  escalations : List EscalationDetail
  total : Nat
  pending_count : Nat
deriving DecidableEq

/-- The `listEscalations` wire request: bearer token plus the optional status
filter (`url.searchParams.set('status', ...)` only when a filter is chosen). -/
structure ListEscalationsRequest where
  token : String
  status : Option String
deriving DecidableEq

/-- Result of a `fetch` as the API client sees it: either an HTTP response with
a status code, or a rejected promise (network failure). -/
inductive FetchResult (α : Type) where
  | response (code : Nat) (body : α)
  | networkError
deriving DecidableEq

/-- The `Response.ok` predicate of the Fetch API: status in 200..299. -/
def resOk (code : Nat) : Bool :=
  200 ≤ code && code ≤ 299

/-- Error taxonomy as the client experiences a failed call: a thrown
`API error: {status}` on a non-2xx response, or the network rejection itself. -/
inductive ApiError where
  | api (code : Nat)
  | network
deriving DecidableEq

/-- ApiClient.getEscalations: `if (!res.ok) throw new Error(...)` — every
non-2xx status and every network failure surface as the same thrown error. -/
def ApiClient.getEscalations (r : FetchResult EscalationListBody) :
    Except ApiError EscalationListBody :=
  match r with
  | .networkError => .error .network
  | .response code body =>
    if resOk code then .ok body else .error (.api code)

end FBTP

namespace FBTP.OperatorPanel

/-- Outcome of an awaited `api.getEscalations` call in `loadEscalations`. -/
inductive LoadOutcome where
  | success (body : FBTP.EscalationListBody)
  | failure
deriving DecidableEq

/-- Outcome of an awaited `api.operatorLogin` call. -/
inductive LoginOutcome where
  | success (token username : String)
  | failure
deriving DecidableEq

/-- Outcome of an awaited `api.operatorReply` call. -/
inductive ReplyOutcome where
  | success
  | failure
deriving DecidableEq

/-- React state of the OperatorPanel component, plus the `op_token` key of
`localStorage` it mirrors (`storedToken`). -/
structure State where
  token : Option String
  storedToken : Option String
  username : String
  password : String
  loginError : String
  escalations : List FBTP.EscalationDetail
  pendingCount : Nat
  selectedId : Option String
  replyText : String
  closeTicket : Bool
  filter : String
  loading : Bool
deriving DecidableEq

/-- The poll request `loadEscalations` would issue: none when the token is
falsy (`if (!token) return`); otherwise the bearer token with
`filter || undefined`. -/
def loadRequest (s : State) : Option FBTP.ListEscalationsRequest :=
  if ¬ FBTP.jsStr s.token then none
  else some ⟨s.token.getD "", if s.filter = "" then none else some s.filter⟩

/-- OperatorPanel.loadEscalations: on success store the ticket list and pending
count; on any caught error drop the token from state and from localStorage. -/
def loadEscalations (s : State) (out : LoadOutcome) :
    State × Option FBTP.ListEscalationsRequest :=
  if ¬ FBTP.jsStr s.token then (s, none)
  else
    match out with
    | .success body =>
      ({ s with escalations := body.escalations,
                pendingCount := body.pending_count,
                loading := false }, loadRequest s)
    | .failure =>
      ({ s with token := none, storedToken := none, loading := false }, loadRequest s)

/-- Poll through the API client: classify the raw fetch result exactly as
`ApiClient.getEscalations` does (throw on any non-2xx or network failure),
then run `loadEscalations`'s continuation. -/
def pollWith (s : State) (r : FBTP.FetchResult FBTP.EscalationListBody) :
    State × Option FBTP.ListEscalationsRequest :=
  loadEscalations s
    (match FBTP.ApiClient.getEscalations r with
     | .ok body => .success body
     | .error _ => .failure)

/-- OperatorPanel.handleLogin: on success keep the token in state and in
localStorage; on failure show the login error text. -/
def handleLogin (s : State) (out : LoginOutcome) : State :=
  match out with
  | .success tok _ =>
    { s with token := some tok, storedToken := some tok, loginError := "" }
  | .failure => { s with loginError := "Неверный логин или пароль" }

/-- OperatorPanel.handleReply: guarded on token, selection and non-blank reply
text; on success clear the reply box and trigger an immediate refresh
(`loadEscalations()`); on failure alert without refresh. The returned flag
records whether the on-demand refresh was triggered. -/
def handleReply (s : State) (out : ReplyOutcome) : State × Bool :=
  if ¬ FBTP.jsStr s.token ∨ ¬ FBTP.jsStr s.selectedId ∨ FBTP.jsTrim s.replyText = ""
  then (s, false)
  else
    match out with
    | .success => ({ s with replyText := "", closeTicket := false }, true)
    | .failure => (s, false)

/-- The login form is rendered instead of the panel iff the token is falsy
(`if (!token) return <login form>`). -/
def loginFormShown (s : State) : Bool :=
  !(FBTP.jsStr s.token)

/-- The dependency key of the polling `useEffect`: `loadEscalations` is a
`useCallback` over `[token, filter]`, so the effect re-runs exactly when one of
those changes. -/
def depKey (s : State) : Option String × String :=
  (s.token, s.filter)

/-- State of the polling effect: the armed `setInterval` period, if any. -/
structure PollTimer where
  intervalMs : Option Nat
deriving DecidableEq

/-- Lifecycle events of the polling `useEffect`. -/
inductive EffectEvent where
  | mount
  | depChange
  | unmount
deriving DecidableEq

/-- Semantics of
`useEffect(() => { loadEscalations(); const interval = setInterval(loadEscalations, 15000);
return () => clearInterval(interval) }, [loadEscalations])`:
mount and every dependency change run the effect (one immediate load and a
fresh 15000 ms interval); unmount runs only the cleanup. The returned flag
records whether an immediate `loadEscalations()` was fired. -/
def effectStep (_t : PollTimer) (e : EffectEvent) : PollTimer × Bool :=
  match e with
  | .mount => (⟨some 15000⟩, true)
  | .depChange => (⟨some 15000⟩, true)
  | .unmount => (⟨none⟩, false)

end FBTP.OperatorPanel

namespace FBTP.JavaClient

/-- Session field of `FarmbazisAIClient` (FarmbazisAIIntegration.java). -/
structure State where
  sessionId : Option String
deriving DecidableEq

/-- FarmbazisAIClient.ask builds a JSON body with `message` and, only when a
session id is held, `session_id`. -/
def askRequest (st : State) (question : String) : FBTP.ChatRequest :=
  ⟨question, st.sessionId⟩

/-- SupportDialog.handleAsk: trim the question area, refuse an empty question,
otherwise call `ask`. -/
def handleAskRequest (st : State) (questionArea : String) : Option FBTP.ChatRequest :=
  let question := FBTP.jsTrim questionArea
  if question = "" then none else some (askRequest st question)

/-- SupportDialog.handleResponse's topic radio listener:
`questionArea.setText(String.valueOf(topic.number)); handleAsk()`, where
`topic.number` was assigned `i + 1` while parsing `suggested_topics`. -/
def topicSelectRequest (st : State) (number : Nat) : Option FBTP.ChatRequest :=
  handleAskRequest st (Nat.repr number)

end FBTP.JavaClient

namespace FBTP.Engine

/-- Modelled from the spec: one turn of a server-side transcript. The backend
(FastAPI app of the README's structure) is not under src/, so turns carry an
explicit identity so that "shares no turns" is expressible; the spec's
transcript is an append-only ordered sequence of turns. -/
structure Turn where
  turnId : Nat
  role : FBTP.Role
  content : String
deriving DecidableEq

/-- Modelled from the spec: the answering engine's session store. `session_id`
is an opaque unique token assigned by the engine on first turn; the model uses
an allocation counter for tokens and one for turn identities. -/
structure State where
  nextSession : Nat
  nextTurn : Nat
  sessions : List (Nat × List Turn)
deriving DecidableEq

/-- Allocation soundness of the modelled engine store: every existing session
token and every existing turn identity is below its allocation counter. -/
def wf (st : State) : Prop :=
  ∀ p ∈ st.sessions, p.1 < st.nextSession ∧ ∀ tu ∈ p.2, tu.turnId < st.nextTurn

instance (st : State) : Decidable (wf st) := by
  unfold wf; infer_instance

/-- Transcript of one session: the turns stored under its token. -/
def transcript (st : State) (sid : Nat) : List Turn :=
  (st.sessions.filterMap fun p => if p.1 = sid then some p.2 else none).flatten

/-- Modelled from the spec: `sendTurn(sessionId?, text)`. If `sessionId` is
absent the engine allocates a fresh token and starts a context-free transcript;
otherwise the call appends one user and one assistant turn to that session's
transcript. Returns the new store and the `session_id` echoed in the response. -/
def sendTurn (st : State) (sessionId : Option Nat) (msg reply : String) :
    State × Nat :=
  match sessionId with
  | some t =>
    ({ st with
        nextTurn := st.nextTurn + 2,
        sessions := st.sessions.map fun p =>
          if p.1 = t
          then (p.1, p.2 ++ [⟨st.nextTurn, .user, msg⟩, ⟨st.nextTurn + 1, .assistant, reply⟩])
          else p }, t)
  | none =>
    let sid := st.nextSession
    ({ nextSession := st.nextSession + 1,
       nextTurn := st.nextTurn + 2,
       sessions := st.sessions ++
         [(sid, [⟨st.nextTurn, .user, msg⟩, ⟨st.nextTurn + 1, .assistant, reply⟩])] },
     sid)

end FBTP.Engine

namespace FBTP

/-- Characters produced by `Nat.digitChar` are never whitespace. -/
theorem digitChar_not_whitespace (n : Nat) :
    (Nat.digitChar n).isWhitespace = false := by
  by_cases h : n < 16
  · interval_cases n <;> decide
  · have h2 : Nat.digitChar n = '*' := by
      unfold Nat.digitChar
      repeat rw [if_neg (by omega)]
    rw [h2]; decide

/-- Every character `Nat.toDigitsCore` emits is a digit character or comes from
the accumulator, hence is non-whitespace when the accumulator's are. -/
theorem toDigitsCore_not_whitespace (b : Nat) :
    ∀ (fuel n : Nat) (ds : List Char),
      (∀ c ∈ ds, c.isWhitespace = false) →
      ∀ c ∈ Nat.toDigitsCore b fuel n ds, c.isWhitespace = false := by
  intro fuel
  induction fuel with
  | zero => intro n ds hds; simpa [Nat.toDigitsCore] using hds
  | succ f ih =>
    intro n ds hds c hc
    simp only [Nat.toDigitsCore] at hc
    by_cases h : n / b = 0
    · simp only [h, if_pos rfl] at hc
      rcases List.mem_cons.mp hc with h1 | h1
      · simpa [h1] using digitChar_not_whitespace (n % b)
      · exact hds c h1
    · simp only [if_neg h] at hc
      refine ih (n / b) (Nat.digitChar (n % b) :: ds) ?_ c hc
      intro d hd
      rcases List.mem_cons.mp hd with h1 | h1
      · simpa [h1] using digitChar_not_whitespace (n % b)
      · exact hds d h1

/-- With fuel available, `Nat.toDigitsCore` never returns an empty list. -/
theorem toDigitsCore_ne_nil (b : Nat) :
    ∀ (fuel n : Nat) (ds : List Char), 0 < fuel →
      Nat.toDigitsCore b fuel n ds ≠ [] := by
  intro fuel
  induction fuel with
  | zero => intro n ds h; omega
  | succ f ih =>
    intro n ds _
    simp only [Nat.toDigitsCore]
    by_cases h : n / b = 0
    · simp [h]
    · simp only [if_neg h]
      rcases Nat.eq_zero_or_pos f with hf | hf
      · subst hf; simp [Nat.toDigitsCore]
      · exact ih (n / b) (Nat.digitChar (n % b) :: ds) hf

/-- Dropping by a predicate that holds nowhere on the list is the identity. -/
theorem dropWhile_eq_self_of_all_false {l : List Char} {p : Char → Bool}
    (h : ∀ c ∈ l, p c = false) : l.dropWhile p = l := by
  cases l with
  | nil => rfl
  | cons a as => simp [List.dropWhile, h a (List.mem_cons_self a as)]

/-- A string none of whose characters is whitespace is fixed by `jsTrim`. -/
theorem jsTrim_eq_self {s : String}
    (h : ∀ c ∈ s.toList, c.isWhitespace = false) : jsTrim s = s := by
  unfold jsTrim
  rw [dropWhile_eq_self_of_all_false h,
      dropWhile_eq_self_of_all_false (by intro c hc; exact h c (List.mem_reverse.mp hc)),
      List.reverse_reverse]
  cases s; rfl

/-- The characters of `Nat.repr n` are the digits produced by `Nat.toDigits`. -/
theorem repr_toList (n : Nat) : (Nat.repr n).toList = Nat.toDigits 10 n := rfl

/-- The decimal rendering of a natural number contains no whitespace. -/
theorem repr_not_whitespace (n : Nat) :
    ∀ c ∈ (Nat.repr n).toList, c.isWhitespace = false := by
  rw [repr_toList]
  exact toDigitsCore_not_whitespace 10 (n + 1) n [] (by intro c hc; cases hc)

/-- JS `String(k)` round-trips through `trim` unchanged. -/
theorem jsTrim_repr (n : Nat) : jsTrim (Nat.repr n) = Nat.repr n :=
  jsTrim_eq_self (repr_not_whitespace n)

/-- The decimal rendering of a natural number is never the empty string. -/
theorem repr_ne_empty (n : Nat) : Nat.repr n ≠ "" := by
  intro h
  have h2 : (Nat.repr n).toList = [] := by rw [h]; rfl
  rw [repr_toList] at h2
  exact toDigitsCore_ne_nil 10 (n + 1) n [] (Nat.succ_pos n) h2

end FBTP

namespace FBTP.ChatPage

/-- Unfolding of a successful `sendMessage` under its guards. -/
theorem sendMessage_success (s : State) (r : FBTP.ChatResponse)
    (hin : FBTP.jsTrim s.input ≠ "") (hld : s.loading = false) :
    sendMessage s (.success r) =
      ({ s with
          messages := s.messages ++
            [{ role := .user, content := FBTP.jsTrim s.input }, botMessageOf r],
          input := "",
          loading := false,
          sessionId :=
            if FBTP.jsStr s.sessionId then s.sessionId else some r.session_id,
          showEscalation :=
            if r.needs_escalation ∧ r.response_type ≠ .clarification
            then true else s.showEscalation },
       [⟨FBTP.jsTrim s.input, FBTP.orUndefined s.sessionId⟩]) := by
  unfold sendMessage
  rw [if_neg (by simp [hin, hld])]
  by_cases hne : r.needs_escalation ∧ r.response_type ≠ FBTP.ResponseType.clarification
  · simp [hne, List.append_assoc]
  · simp [hne, List.append_assoc]

end FBTP.ChatPage

namespace FBTP.ChatPage

/-- Unfolding of a failed `sendMessage` under its guards. -/
theorem sendMessage_failure (s : State)
    (hin : FBTP.jsTrim s.input ≠ "") (hld : s.loading = false) :
    sendMessage s .failure =
      ({ s with
          messages := s.messages ++
            [{ role := .user, content := FBTP.jsTrim s.input },
             { role := .assistant, content := sendErrorText }],
          input := "",
          loading := false },
       [⟨FBTP.jsTrim s.input, FBTP.orUndefined s.sessionId⟩]) := by
  unfold sendMessage
  rw [if_neg (by simp [hin, hld])]
  simp [List.append_assoc]

/-- Unfolding of a successful `handleTopicSelect` under its guard. -/
theorem handleTopicSelect_success (s : State) (j : Nat) (r : FBTP.ChatResponse)
    (hld : s.loading = false) :
    handleTopicSelect s j (.success r) =
      ({ s with
          messages := s.messages ++
            [{ role := .user, content := Nat.repr (j + 1) }, botMessageOf r],
          loading := false,
          sessionId :=
            if FBTP.jsStr s.sessionId then s.sessionId else some r.session_id,
          showEscalation :=
            if r.needs_escalation ∧ r.response_type ≠ .clarification
            then true else s.showEscalation },
       [⟨Nat.repr (j + 1), FBTP.orUndefined s.sessionId⟩]) := by
  unfold handleTopicSelect
  rw [if_neg (by simp [hld])]
  by_cases hne : r.needs_escalation ∧ r.response_type ≠ FBTP.ResponseType.clarification
  · simp [hne, List.append_assoc]
  · simp [hne, List.append_assoc]

/-- Unfolding of a failed `handleTopicSelect` under its guard. -/
theorem handleTopicSelect_failure (s : State) (j : Nat)
    (hld : s.loading = false) :
    handleTopicSelect s j .failure =
      ({ s with
          messages := s.messages ++
            [{ role := .user, content := Nat.repr (j + 1) },
             { role := .assistant, content := topicErrorText }],
          loading := false },
       [⟨Nat.repr (j + 1), FBTP.orUndefined s.sessionId⟩]) := by
  unfold handleTopicSelect
  rw [if_neg (by simp [hld])]
  simp [List.append_assoc]

end FBTP.ChatPage

namespace FBTP.ChatWidget

/-- Unfolding of a successful widget `sendMessage` under its guards. -/
theorem widgetSendMessage_success (s : State) (r : FBTP.ChatResponse)
    (hin : FBTP.jsTrim s.input ≠ "") (hld : s.loading = false) :
    sendMessage s (.success r) =
      ({ s with
          messages :=
            s.messages ++
              [{ role := .user, content := FBTP.jsTrim s.input }, botMsgOf r] ++
              (if r.needs_escalation ∧ r.session_id ≠ "" ∧
                  r.response_type ≠ .clarification
               then [{ role := .assistant, content := escalationHintText }] else []),
          input := "",
          loading := false,
          sessionId :=
            if FBTP.jsStr s.sessionId then s.sessionId else some r.session_id,
          unread := if !s.isOpen then s.unread + 1 else s.unread },
       [⟨FBTP.jsTrim s.input, FBTP.orUndefined s.sessionId⟩]) := by
  unfold sendMessage
  rw [if_neg (by simp [hin, hld])]
  by_cases hne : r.needs_escalation ∧ r.session_id ≠ "" ∧
      r.response_type ≠ FBTP.ResponseType.clarification
  · by_cases hop : s.isOpen <;> simp [hne, hop, List.append_assoc]
  · by_cases hop : s.isOpen <;> simp [hne, hop, List.append_assoc]

/-- Unfolding of a failed widget `sendMessage` under its guards. -/
theorem widgetSendMessage_failure (s : State)
    (hin : FBTP.jsTrim s.input ≠ "") (hld : s.loading = false) :
    sendMessage s .failure =
      ({ s with
          messages := s.messages ++
            [{ role := .user, content := FBTP.jsTrim s.input },
             { role := .assistant, content := sendErrorText }],
          input := "",
          loading := false },
       [⟨FBTP.jsTrim s.input, FBTP.orUndefined s.sessionId⟩]) := by
  unfold sendMessage
  rw [if_neg (by simp [hin, hld])]
  simp [List.append_assoc]

/-- Unfolding of a successful widget `handleTopicSelect` under its guard. -/
theorem widgetTopicSelect_success (s : State) (j : Nat) (r : FBTP.ChatResponse)
    (hld : s.loading = false) :
    handleTopicSelect s j (.success r) =
      ({ s with
          messages := s.messages ++
            [{ role := .user, content := Nat.repr (j + 1) }, botMsgOf r],
          loading := false,
          sessionId :=
            if FBTP.jsStr s.sessionId then s.sessionId else some r.session_id },
       [⟨Nat.repr (j + 1), FBTP.orUndefined s.sessionId⟩]) := by
  unfold handleTopicSelect
  rw [if_neg (by simp [hld])]
  simp [List.append_assoc]

/-- Unfolding of a failed widget `handleTopicSelect` under its guard. -/
theorem widgetTopicSelect_failure (s : State) (j : Nat)
    (hld : s.loading = false) :
    handleTopicSelect s j .failure =
      ({ s with
          messages := s.messages ++
            [{ role := .user, content := Nat.repr (j + 1) },
             { role := .assistant, content := sendErrorText }],
          loading := false },
       [⟨Nat.repr (j + 1), FBTP.orUndefined s.sessionId⟩]) := by
  unfold handleTopicSelect
  rw [if_neg (by simp [hld])]
  simp [List.append_assoc]

end FBTP.ChatWidget

namespace FBTP.LegacyWidget

/-- Unfolding of a successful legacy-widget `sendMessage` under its guards. -/
theorem legacySendMessage_success (s : State) (r : FBTP.ChatResponse)
    (hin : FBTP.jsTrim s.input ≠ "") (hld : s.loading = false) :
    sendMessage s (.success r) =
      ({ s with
          messages :=
            s.messages ++
              [{ role := .user, content := FBTP.jsTrim s.input }, botMsgOf r] ++
              (if r.needs_escalation ∧ r.session_id ≠ ""
               then [{ role := .assistant, content := escalationHintText }] else []),
          input := "",
          loading := false,
          sessionId :=
            if FBTP.jsStr s.sessionId then s.sessionId else some r.session_id,
          unread := if !s.isOpen then s.unread + 1 else s.unread },
       [⟨FBTP.jsTrim s.input, FBTP.orUndefined s.sessionId⟩]) := by
  unfold sendMessage
  rw [if_neg (by simp [hin, hld])]
  by_cases hne : r.needs_escalation ∧ r.session_id ≠ ""
  · by_cases hop : s.isOpen <;> simp [hne, hop, List.append_assoc]
  · by_cases hop : s.isOpen <;> simp [hne, hop, List.append_assoc]

/-- Unfolding of a failed legacy-widget `sendMessage` under its guards. -/
theorem legacySendMessage_failure (s : State)
    (hin : FBTP.jsTrim s.input ≠ "") (hld : s.loading = false) :
    sendMessage s .failure =
      ({ s with
          messages := s.messages ++
            [{ role := .user, content := FBTP.jsTrim s.input },
             { role := .assistant, content := sendErrorText }],
          input := "",
          loading := false },
       [⟨FBTP.jsTrim s.input, FBTP.orUndefined s.sessionId⟩]) := by
  unfold sendMessage
  rw [if_neg (by simp [hin, hld])]
  simp [List.append_assoc]

end FBTP.LegacyWidget

namespace FBTP.ChatPage

/-- `sendMessage` never touches the one-shot `escalationSent` flag. -/
theorem sendMessage_escalationSent (s : State) (out : FBTP.ChatOutcome) :
    (sendMessage s out).1.escalationSent = s.escalationSent := by
  unfold sendMessage
  cases out <;> dsimp only <;> split <;> (try split) <;> rfl

/-- `handleTopicSelect` never touches the one-shot `escalationSent` flag. -/
theorem handleTopicSelect_escalationSent (s : State) (j : Nat)
    (out : FBTP.ChatOutcome) :
    (handleTopicSelect s j out).1.escalationSent = s.escalationSent := by
  unfold handleTopicSelect
  cases out <;> dsimp only <;> split <;> (try split) <;> rfl

/-- `sendMessage` never changes a session token that is already truthy, and
every request it issues carries that token. -/
theorem sendMessage_sessionId_stable (s : State) (out : FBTP.ChatOutcome)
    (t : String) (h : s.sessionId = some t) (ht : t ≠ "") :
    (sendMessage s out).1.sessionId = some t ∧
    ∀ req ∈ (sendMessage s out).2, req.session_id = some t := by
  have hjs : FBTP.jsStr s.sessionId = true := by simp [FBTP.jsStr, h, ht]
  have hor : FBTP.orUndefined s.sessionId = some t := by
    simp [FBTP.orUndefined, FBTP.jsStr, h, ht]
  unfold sendMessage
  cases out <;> dsimp only <;> split <;> (try split) <;>
    simp_all [FBTP.orUndefined, FBTP.jsStr]

/-- `handleTopicSelect` never changes a truthy session token, and every request
it issues carries that token. -/
theorem handleTopicSelect_sessionId_stable (s : State) (j : Nat)
    (out : FBTP.ChatOutcome) (t : String) (h : s.sessionId = some t) (ht : t ≠ "") :
    (handleTopicSelect s j out).1.sessionId = some t ∧
    ∀ req ∈ (handleTopicSelect s j out).2, req.session_id = some t := by
  have hjs : FBTP.jsStr s.sessionId = true := by simp [FBTP.jsStr, h, ht]
  have hor : FBTP.orUndefined s.sessionId = some t := by
    simp [FBTP.orUndefined, FBTP.jsStr, h, ht]
  unfold handleTopicSelect
  cases out <;> dsimp only <;> split <;> (try split) <;>
    simp_all [FBTP.orUndefined, FBTP.jsStr]

/-- `handleEscalation` never changes the session token. -/
theorem handleEscalation_sessionId (s : State) (out : FBTP.EscOutcome) :
    (handleEscalation s out).1.sessionId = s.sessionId := by
  unfold handleEscalation
  cases out <;> dsimp only <;> split <;> rfl

/-- `handleEscalation` keeps the one-shot flag once it is set. -/
theorem handleEscalation_escalationSent (s : State) (out : FBTP.EscOutcome)
    (h : s.escalationSent = true) :
    (handleEscalation s out).1.escalationSent = true := by
  unfold handleEscalation
  cases out <;> dsimp only <;> split <;> simp [h]

/-- Once the one-shot flag is set, a ChatPage step keeps it set and can emit no
`createEscalation` request: the form (and with it the submit button) is gone. -/
theorem step_escalationSent_invariant (s : State) (e : Event)
    (h : s.escalationSent = true) :
    (step s e).1.escalationSent = true ∧ (step s e).2.escalation = [] := by
  have hform : escalationFormVisible s = false := by
    simp [escalationFormVisible, h]
  cases e with
  | typeInput t => simpa [step] using h
  | send out => simpa [step, sendMessage_escalationSent] using h
  | topicSelect i out => simpa [step, handleTopicSelect_escalationSent] using h
  | escalationSubmit out => simp [step, hform, h]
  | escalationDismiss => simp [step, hform, h]
  | typeContact t => simpa [step] using h
  | typeReason t => simpa [step] using h

/-- Trace form of the one-shot invariant: from any state with the flag set, no
sequence of ChatPage events emits a `createEscalation` request, and the flag
stays set. -/
theorem run_escalationSent_invariant (s : State) (es : List Event)
    (h : s.escalationSent = true) :
    (run s es).1.escalationSent = true ∧ (run s es).2.escalation = [] := by
  induction es generalizing s with
  | nil => simpa [run] using h
  | cons e rest ih =>
    have hstep := step_escalationSent_invariant s e h
    have hrest := ih (step s e).1 hstep.1
    simp only [run]
    constructor
    · exact hrest.1
    · simp [hstep.2, hrest.2]

/-- A ChatPage step never changes a truthy session token, and every chat
request it emits carries that token. -/
theorem step_sessionId_stable (s : State) (e : Event) (t : String)
    (h : s.sessionId = some t) (ht : t ≠ "") :
    (step s e).1.sessionId = some t ∧
    ∀ req ∈ (step s e).2.chat, req.session_id = some t := by
  cases e with
  | typeInput u => simp [step, h]
  | send out =>
    have := sendMessage_sessionId_stable s out t h ht
    simpa [step] using this
  | topicSelect i out =>
    have := handleTopicSelect_sessionId_stable s i out t h ht
    simpa [step] using this
  | escalationSubmit out =>
    by_cases hf : escalationFormVisible s = true
    · simp [step, hf, handleEscalation_sessionId, h]
    · simp [step, hf, h]
  | escalationDismiss =>
    by_cases hf : escalationFormVisible s = true
    · simp [step, hf, h]
    · simp [step, hf, h]
  | typeContact u => simp [step, h]
  | typeReason u => simp [step, h]

/-- Trace form of token stability. -/
theorem run_sessionId_stable (s : State) (es : List Event) (t : String)
    (h : s.sessionId = some t) (ht : t ≠ "") :
    (run s es).1.sessionId = some t ∧
    ∀ req ∈ (run s es).2.chat, req.session_id = some t := by
  induction es generalizing s with
  | nil => simp [run, h]
  | cons e rest ih =>
    have hstep := step_sessionId_stable s e t h ht
    have hrest := ih (step s e).1 hstep.1
    simp only [run]
    constructor
    · exact hrest.1
    · intro req hreq
      simp at hreq
      rcases hreq with h1 | h1
      · exact hstep.2 req h1
      · exact hrest.2 req h1

end FBTP.ChatPage

namespace FBTP.Engine

/-- A token-less `sendTurn` allocates a token distinct from every existing
session, and its transcript consists of the two freshly allocated turns. -/
theorem sendTurn_none_spec (st : State) (msg reply : String) (hwf : wf st) :
    (∀ p ∈ st.sessions, p.1 ≠ (sendTurn st none msg reply).2) ∧
    transcript (sendTurn st none msg reply).1 (sendTurn st none msg reply).2 =
      [⟨st.nextTurn, .user, msg⟩, ⟨st.nextTurn + 1, .assistant, reply⟩] := by
  constructor
  · intro p hp
    have := (hwf p hp).1
    simp only [sendTurn]
    omega
  · simp only [sendTurn, transcript, List.filterMap_append]
    have hnil :
        (st.sessions.filterMap fun p =>
          if p.1 = st.nextSession then some p.2 else none) = [] := by
      rw [List.filterMap_eq_nil_iff]
      intro p hp
      have := (hwf p hp).1
      rw [if_neg (by omega)]
    rw [hnil]
    simp

/-- The freshly started transcript shares no turn with any prior session. -/
theorem sendTurn_none_disjoint (st : State) (msg reply : String) (hwf : wf st) :
    ∀ p ∈ st.sessions,
      ∀ tu ∈ transcript (sendTurn st none msg reply).1
               (sendTurn st none msg reply).2, tu ∉ p.2 := by
  intro p hp tu htu hmem
  have hlt := (hwf p hp).2 tu hmem
  rw [(sendTurn_none_spec st msg reply hwf).2] at htu
  simp at htu
  rcases htu with h1 | h1 <;> rw [h1] at hlt <;> simp at hlt

end FBTP.Engine

namespace FBTP.ChatPage

/-- The wire requests of `sendMessage` under its guards: exactly one request,
carrying the trimmed text and the current (truthy-normalized) session token. -/
theorem sendMessage_requests (s : State) (out : FBTP.ChatOutcome)
    (hin : FBTP.jsTrim s.input ≠ "") (hld : s.loading = false) :
    (sendMessage s out).2 =
      [⟨FBTP.jsTrim s.input, FBTP.orUndefined s.sessionId⟩] := by
  cases out with
  | success r => rw [sendMessage_success s r hin hld]
  | failure => rw [sendMessage_failure s hin hld]

/-- The wire requests of `handleTopicSelect` under its guard: exactly one
request, carrying the decimal string of the 1-based topic index. -/
theorem handleTopicSelect_requests (s : State) (j : Nat) (out : FBTP.ChatOutcome)
    (hld : s.loading = false) :
    (handleTopicSelect s j out).2 =
      [⟨Nat.repr (j + 1), FBTP.orUndefined s.sessionId⟩] := by
  cases out with
  | success r => rw [handleTopicSelect_success s j r hld]
  | failure => rw [handleTopicSelect_failure s j hld]

/-- A clarification response never raises the page-level escalation offer. -/
theorem sendMessage_clarification_showEscalation (s : State)
    (r : FBTP.ChatResponse) (hr : r.response_type = .clarification) :
    (sendMessage s (.success r)).1.showEscalation = s.showEscalation := by
  unfold sendMessage
  dsimp only
  split
  · rfl
  · rw [if_neg (by simp [hr])]

/-- A clarification response never raises the page-level escalation offer on
the topic-selection path either. -/
theorem handleTopicSelect_clarification_showEscalation (s : State) (j : Nat)
    (r : FBTP.ChatResponse) (hr : r.response_type = .clarification) :
    (handleTopicSelect s j (.success r)).1.showEscalation = s.showEscalation := by
  unfold handleTopicSelect
  dsimp only
  split
  · rfl
  · rw [if_neg (by simp [hr])]

end FBTP.ChatPage

namespace FBTP

/-- C1 (amended): ChatPage and the clarification-aware ChatWidget never surface
an escalation prompt for a `clarification` response, regardless of
`needs_escalation` — ChatPage's page-level escalation offer is left unchanged on
both send paths, ChatPage renders no per-message escalation button at all, and
the widget appends no escalation hint and shows no escalation button for the
clarification turn. The legacy widget (src/frontend/src/widget/ChatWidget.tsx),
by contrast, appends its escalation hint and shows its escalation button for any
response with `needs_escalation` and a non-empty `session_id`, clarification or
not. -/
theorem claim1_clarification_suppresses_escalation
    (s : ChatPage.State) (sw : ChatWidget.State) (sl : LegacyWidget.State)
    (r : ChatResponse) (j : Nat)
    (hr : r.response_type = .clarification)
    (hwin : jsTrim sw.input ≠ "") (hwld : sw.loading = false)
    (hlin : jsTrim sl.input ≠ "") (hlld : sl.loading = false)
    (hne : r.needs_escalation = true) (hsid : r.session_id ≠ "") :
    (ChatPage.sendMessage s (.success r)).1.showEscalation = s.showEscalation ∧
    (ChatPage.handleTopicSelect s j (.success r)).1.showEscalation =
      s.showEscalation ∧
    (∀ m : ChatPage.Message, (ChatPage.renderMessage m).escalationButton = false) ∧
    (ChatWidget.sendMessage sw (.success r)).1.messages =
      sw.messages ++
        [{ role := .user, content := jsTrim sw.input }, ChatWidget.botMsgOf r] ∧
    ChatWidget.escalationButtonShown (ChatWidget.botMsgOf r) = false ∧
    (LegacyWidget.sendMessage sl (.success r)).1.messages =
      sl.messages ++
        [{ role := .user, content := jsTrim sl.input }, LegacyWidget.botMsgOf r,
         { role := .assistant, content := LegacyWidget.escalationHintText }] ∧
    LegacyWidget.escalationButtonShown (LegacyWidget.botMsgOf r) = true := by
  refine ⟨ChatPage.sendMessage_clarification_showEscalation s r hr,
          ChatPage.handleTopicSelect_clarification_showEscalation s j r hr,
          fun m => rfl, ?_, ?_, ?_, ?_⟩
  · rw [ChatWidget.widgetSendMessage_success sw r hwin hwld]
    simp [hr]
  · simp [ChatWidget.escalationButtonShown, ChatWidget.botMsgOf, hr]
  · rw [LegacyWidget.legacySendMessage_success sl r hlin hlld]
    simp [hne, hsid, List.append_assoc]
  · simp [LegacyWidget.escalationButtonShown, LegacyWidget.botMsgOf, hne]

/-- Witness for C1's amended theorem at concrete states and a concrete
clarification response. -/
theorem claim1_witness :
    (ChatPage.sendMessage
        ⟨[], "в", false, some "sess-1", false, false, "", ""⟩
        (.success ⟨"Уточните тему", "sess-1", 0, true, [], [], false,
          .clarification, some []⟩)).1.showEscalation = false ∧
    (LegacyWidget.sendMessage ⟨true, [], "в", false, some "sess-1", 0⟩
        (.success ⟨"Уточните тему", "sess-1", 0, true, [], [], false,
          .clarification, some []⟩)).1.messages =
      [{ role := .user, content := jsTrim "в" },
       LegacyWidget.botMsgOf ⟨"Уточните тему", "sess-1", 0, true, [], [], false,
         .clarification, some []⟩,
       { role := .assistant, content := LegacyWidget.escalationHintText }] := by
  have h := claim1_clarification_suppresses_escalation
    ⟨[], "в", false, some "sess-1", false, false, "", ""⟩
    ⟨true, [], "в", false, some "sess-1", 0⟩
    ⟨true, [], "в", false, some "sess-1", 0⟩
    ⟨"Уточните тему", "sess-1", 0, true, [], [], false, .clarification, some []⟩
    0 rfl (by decide) rfl (by decide) rfl rfl (by decide)
  exact ⟨h.1, h.2.2.2.2.2.1⟩

/-- C1 counterexample: the legacy widget (cited in the claim's sources) does
surface an escalation prompt for a clarification response with
`needs_escalation = true` — the auto-escalation hint is appended and the bot
turn renders the escalation button. -/
theorem claim1_counterexample :
    ((LegacyWidget.sendMessage ⟨true, [], "не печатает", false, some "sess-1", 0⟩
        (.success ⟨"Уточните, пожалуйста, тему.", "sess-1", 0, true, [], [],
          false, .clarification, some [⟨"Печать счетов", "a1", "s"⟩]⟩)).1.messages.map
        fun m => m.content).contains LegacyWidget.escalationHintText = true ∧
    ((LegacyWidget.sendMessage ⟨true, [], "не печатает", false, some "sess-1", 0⟩
        (.success ⟨"Уточните, пожалуйста, тему.", "sess-1", 0, true, [], [],
          false, .clarification, some [⟨"Печать счетов", "a1", "s"⟩]⟩)).1.messages.any
        fun m => LegacyWidget.escalationButtonShown m) = true := by
  decide

/-- C2: selecting suggested topic `j` (0-based) after a clarification turn
issues exactly one `sendTurn` request whose message text is the decimal string
of `j + 1` with the current session token and no other field, and the very same
request is produced when the user types that digit string — in ChatPage, in the
clarification-aware widget, and in the Java integration client. -/
theorem claim2_topic_selection_wire
    (s : ChatPage.State) (sw : ChatWidget.State) (jv : JavaClient.State)
    (j : Nat) (out out1 out2 : ChatOutcome)
    (hp : s.loading = false) (hw : sw.loading = false) :
    (ChatPage.handleTopicSelect s j out).2 =
      [⟨Nat.repr (j + 1), orUndefined s.sessionId⟩] ∧
    (ChatWidget.handleTopicSelect sw j out1).2 =
      [⟨Nat.repr (j + 1), orUndefined sw.sessionId⟩] ∧
    (∀ s2 : ChatPage.State, s2.loading = false → s2.input = Nat.repr (j + 1) →
      s2.sessionId = s.sessionId →
      (ChatPage.sendMessage s2 out2).2 = (ChatPage.handleTopicSelect s j out).2) ∧
    JavaClient.topicSelectRequest jv (j + 1) =
      some ⟨Nat.repr (j + 1), jv.sessionId⟩ := by
  refine ⟨ChatPage.handleTopicSelect_requests s j out hp, ?_, ?_, ?_⟩
  · cases out1 with
    | success r => rw [ChatWidget.widgetTopicSelect_success sw j r hw]
    | failure => rw [ChatWidget.widgetTopicSelect_failure sw j hw]
  · intro s2 h2 h3 h4
    rw [ChatPage.sendMessage_requests s2 out2
          (by rw [h3, jsTrim_repr]; exact repr_ne_empty _) h2,
        ChatPage.handleTopicSelect_requests s j out hp, h3, jsTrim_repr, h4]
  · unfold JavaClient.topicSelectRequest JavaClient.handleAskRequest
      JavaClient.askRequest
    rw [jsTrim_repr]
    rw [if_neg (repr_ne_empty _)]

/-- Witness for C2 at topic index 0: the selection request is the literal
digit request, and typing "1" produces the identical request. -/
theorem claim2_witness :
    (ChatPage.handleTopicSelect
        ⟨[], "", false, some "sess-1", false, false, "", ""⟩ 0 .failure).2 =
      [⟨Nat.repr 1, orUndefined (some "sess-1")⟩] ∧
    (ChatPage.sendMessage
        ⟨[], "1", false, some "sess-1", false, false, "", ""⟩ .failure).2 =
      (ChatPage.handleTopicSelect
        ⟨[], "", false, some "sess-1", false, false, "", ""⟩ 0 .failure).2 :=
  ⟨(claim2_topic_selection_wire
      ⟨[], "", false, some "sess-1", false, false, "", ""⟩
      ⟨true, [], "", false, none, 0⟩ ⟨none⟩ 0 .failure .failure .failure
      rfl rfl).1,
   (claim2_topic_selection_wire
      ⟨[], "", false, some "sess-1", false, false, "", ""⟩
      ⟨true, [], "", false, none, 0⟩ ⟨none⟩ 0 .failure .failure .failure
      rfl rfl).2.2.1
     ⟨[], "1", false, some "sess-1", false, false, "", ""⟩ rfl (by decide) rfl⟩

end FBTP

namespace FBTP.ChatWidget

/-- The widget's `sendMessage` never changes a truthy session token, and every
request it issues carries that token. -/
theorem widgetSendMessage_sessionId_stable (s : State) (out : FBTP.ChatOutcome)
    (t : String) (h : s.sessionId = some t) (ht : t ≠ "") :
    (sendMessage s out).1.sessionId = some t ∧
    ∀ req ∈ (sendMessage s out).2, req.session_id = some t := by
  have hor : FBTP.orUndefined s.sessionId = some t := by
    simp [FBTP.orUndefined, FBTP.jsStr, h, ht]
  by_cases hg : FBTP.jsTrim s.input = "" ∨ s.loading = true
  · unfold sendMessage
    rw [if_pos hg]
    simp [h]
  · push_neg at hg
    have hld : s.loading = false := by simpa using hg.2
    cases out with
    | success r =>
      rw [widgetSendMessage_success s r hg.1 hld]
      exact ⟨by simp [FBTP.jsStr, h, ht], by simp [hor]⟩
    | failure =>
      rw [widgetSendMessage_failure s hg.1 hld]
      exact ⟨by simpa using h, by simp [hor]⟩

/-- The widget's `handleTopicSelect` never changes a truthy session token, and
every request it issues carries that token. -/
theorem widgetTopicSelect_sessionId_stable (s : State) (j : Nat)
    (out : FBTP.ChatOutcome) (t : String) (h : s.sessionId = some t)
    (ht : t ≠ "") :
    (handleTopicSelect s j out).1.sessionId = some t ∧
    ∀ req ∈ (handleTopicSelect s j out).2, req.session_id = some t := by
  have hor : FBTP.orUndefined s.sessionId = some t := by
    simp [FBTP.orUndefined, FBTP.jsStr, h, ht]
  by_cases hld : s.loading = true
  · unfold handleTopicSelect
    rw [if_pos hld]
    simp [h]
  · have hld2 : s.loading = false := by simpa using hld
    cases out with
    | success r =>
      rw [widgetTopicSelect_success s j r hld2]
      exact ⟨by simp [FBTP.jsStr, h, ht], by simp [hor]⟩
    | failure =>
      rw [widgetTopicSelect_failure s j hld2]
      exact ⟨by simpa using h, by simp [hor]⟩

/-- A first widget `sendTurn` with no stored token puts `session_id = null` on
the wire and persists the token the engine returns. -/
theorem widgetSendMessage_fresh (s : State) (r : FBTP.ChatResponse)
    (hf : s.sessionId = none) (hin : FBTP.jsTrim s.input ≠ "")
    (hld : s.loading = false) :
    (sendMessage s (.success r)).2 = [⟨FBTP.jsTrim s.input, none⟩] ∧
    (sendMessage s (.success r)).1.sessionId = some r.session_id := by
  rw [widgetSendMessage_success s r hin hld]
  exact ⟨by simp [FBTP.orUndefined, FBTP.jsStr, hf], by simp [FBTP.jsStr, hf]⟩

end FBTP.ChatWidget

namespace FBTP.LegacyWidget

/-- The legacy widget's `sendMessage` never changes a truthy session token, and
every request it issues carries that token. -/
theorem legacySendMessage_sessionId_stable (s : State) (out : FBTP.ChatOutcome)
    (t : String) (h : s.sessionId = some t) (ht : t ≠ "") :
    (sendMessage s out).1.sessionId = some t ∧
    ∀ req ∈ (sendMessage s out).2, req.session_id = some t := by
  have hor : FBTP.orUndefined s.sessionId = some t := by
    simp [FBTP.orUndefined, FBTP.jsStr, h, ht]
  by_cases hg : FBTP.jsTrim s.input = "" ∨ s.loading = true
  · unfold sendMessage
    rw [if_pos hg]
    simp [h]
  · push_neg at hg
    have hld : s.loading = false := by simpa using hg.2
    cases out with
    | success r =>
      rw [legacySendMessage_success s r hg.1 hld]
      exact ⟨by simp [FBTP.jsStr, h, ht], by simp [hor]⟩
    | failure =>
      rw [legacySendMessage_failure s hg.1 hld]
      exact ⟨by simpa using h, by simp [hor]⟩

/-- A first legacy-widget `sendTurn` with no stored token puts
`session_id = null` on the wire and persists the token the engine returns. -/
theorem legacySendMessage_fresh (s : State) (r : FBTP.ChatResponse)
    (hf : s.sessionId = none) (hin : FBTP.jsTrim s.input ≠ "")
    (hld : s.loading = false) :
    (sendMessage s (.success r)).2 = [⟨FBTP.jsTrim s.input, none⟩] ∧
    (sendMessage s (.success r)).1.sessionId = some r.session_id := by
  rw [legacySendMessage_success s r hin hld]
  exact ⟨by simp [FBTP.orUndefined, FBTP.jsStr, hf], by simp [FBTP.jsStr, hf]⟩

end FBTP.LegacyWidget

namespace FBTP

/-- C3 (amended): ChatPage enforces one-shot escalation — a successful submit
from the visible form sets the `escalationSent` flag, and from any state with
the flag set no sequence of ChatPage events can show the form again or emit
another `createEscalation` request. The widget clients have no such flag (see
the counterexample: the widget can submit a second ticket for the same
session). -/
theorem claim3_one_shot_escalation
    (s s0 : ChatPage.State) (es : List ChatPage.Event) (r : EscalationResponse)
    (hform : ChatPage.escalationFormVisible s0 = true)
    (hsid : jsStr s0.sessionId = true)
    (h : s.escalationSent = true) :
    (ChatPage.step s0 (.escalationSubmit (.success r))).1.escalationSent = true ∧
    (ChatPage.run s es).1.escalationSent = true ∧
    ChatPage.escalationFormVisible (ChatPage.run s es).1 = false ∧
    (ChatPage.run s es).2.escalation = [] := by
  have hrun := ChatPage.run_escalationSent_invariant s es h
  refine ⟨?_, hrun.1, ?_, hrun.2⟩
  · simp [ChatPage.step, hform, ChatPage.handleEscalation, hsid]
  · simp [ChatPage.escalationFormVisible, hrun.1]

/-- Witness for C3's amended theorem at a concrete post-escalation state. -/
theorem claim3_witness :
    (ChatPage.step ⟨[], "", false, some "sess-1", true, false, "", ""⟩
        (.escalationSubmit (.success ⟨"esc-1", "pending", "Заявка создана", 1⟩))).1.escalationSent
      = true ∧
    (ChatPage.run ⟨[], "", false, some "sess-1", false, true, "", ""⟩
        [.send .failure, .escalationSubmit (.success ⟨"esc-2", "pending", "ok", 2⟩)]).2.escalation
      = [] := by
  have h := claim3_one_shot_escalation
    ⟨[], "", false, some "sess-1", false, true, "", ""⟩
    ⟨[], "", false, some "sess-1", true, false, "", ""⟩
    [.send .failure, .escalationSubmit (.success ⟨"esc-2", "pending", "ok", 2⟩)]
    ⟨"esc-1", "pending", "Заявка создана", 1⟩
    rfl (by decide) rfl
  exact ⟨h.1, h.2.2.2⟩

/-- C3 counterexample: the widget client (ChatWidget.handleEscalation, cited in
the claim's sources) has no one-shot flag — immediately after one successful
`createEscalation` for session "sess-9", a second submit emits another
`createEscalation` request for the same session. -/
theorem claim3_counterexample :
    (LegacyWidget.handleEscalation ⟨true, [], "", false, some "sess-9", 0⟩
        (.success ⟨"esc-1", "pending", "Заявка создана", 1⟩)).2 =
      [⟨"sess-9", none, none⟩] ∧
    (LegacyWidget.handleEscalation
        (LegacyWidget.handleEscalation ⟨true, [], "", false, some "sess-9", 0⟩
          (.success ⟨"esc-1", "pending", "Заявка создана", 1⟩)).1
        (.success ⟨"esc-2", "pending", "Заявка создана", 2⟩)).2 =
      [⟨"sess-9", none, none⟩] := by
  decide

/-- C4: in every client, a truthy stored session token is never changed and
every chat request carries it, and a first `sendTurn` from a token-less state
goes out with `session_id = null` and persists the returned token — in ChatPage
over arbitrary event traces, and per call in the clarification-aware widget
(both send paths) and in the legacy widget (src/frontend/src/widget/ChatWidget.tsx).
On the engine side (spec-modelled, backend not under src/), a token-less
`sendTurn` allocates a token distinct from every existing session and its
transcript shares no turn with any prior session. -/
theorem claim4_session_token
    (s : ChatPage.State) (t : String) (es : List ChatPage.Event)
    (sf : ChatPage.State) (r : ChatResponse)
    (st : Engine.State) (msg reply : String)
    (h : s.sessionId = some t) (ht : t ≠ "")
    (hf : sf.sessionId = none) (hin : jsTrim sf.input ≠ "")
    (hld : sf.loading = false)
    (hwf : Engine.wf st) :
    (ChatPage.run s es).1.sessionId = some t ∧
    (∀ req ∈ (ChatPage.run s es).2.chat, req.session_id = some t) ∧
    (ChatPage.sendMessage sf (.success r)).2 = [⟨jsTrim sf.input, none⟩] ∧
    (ChatPage.sendMessage sf (.success r)).1.sessionId = some r.session_id ∧
    (∀ (sw : ChatWidget.State) (ow : ChatOutcome) (tw : String),
      sw.sessionId = some tw → tw ≠ "" →
      (ChatWidget.sendMessage sw ow).1.sessionId = some tw ∧
      ∀ req ∈ (ChatWidget.sendMessage sw ow).2, req.session_id = some tw) ∧
    (∀ (sw : ChatWidget.State) (jw : Nat) (ow : ChatOutcome) (tw : String),
      sw.sessionId = some tw → tw ≠ "" →
      (ChatWidget.handleTopicSelect sw jw ow).1.sessionId = some tw ∧
      ∀ req ∈ (ChatWidget.handleTopicSelect sw jw ow).2,
        req.session_id = some tw) ∧
    (∀ (sw : ChatWidget.State) (rw : ChatResponse),
      sw.sessionId = none → jsTrim sw.input ≠ "" → sw.loading = false →
      (ChatWidget.sendMessage sw (.success rw)).2 =
        [⟨jsTrim sw.input, none⟩] ∧
      (ChatWidget.sendMessage sw (.success rw)).1.sessionId =
        some rw.session_id) ∧
    (∀ (sl : LegacyWidget.State) (ol : ChatOutcome) (tl : String),
      sl.sessionId = some tl → tl ≠ "" →
      (LegacyWidget.sendMessage sl ol).1.sessionId = some tl ∧
      ∀ req ∈ (LegacyWidget.sendMessage sl ol).2, req.session_id = some tl) ∧
    (∀ (sl : LegacyWidget.State) (rl : ChatResponse),
      sl.sessionId = none → jsTrim sl.input ≠ "" → sl.loading = false →
      (LegacyWidget.sendMessage sl (.success rl)).2 =
        [⟨jsTrim sl.input, none⟩] ∧
      (LegacyWidget.sendMessage sl (.success rl)).1.sessionId =
        some rl.session_id) ∧
    (∀ p ∈ st.sessions, p.1 ≠ (Engine.sendTurn st none msg reply).2) ∧
    (∀ p ∈ st.sessions,
      ∀ tu ∈ Engine.transcript (Engine.sendTurn st none msg reply).1
               (Engine.sendTurn st none msg reply).2, tu ∉ p.2) := by
  have hrun := ChatPage.run_sessionId_stable s es t h ht
  refine ⟨hrun.1, hrun.2, ?_, ?_, ?_, ?_, ?_, ?_, ?_,
          (Engine.sendTurn_none_spec st msg reply hwf).1,
          Engine.sendTurn_none_disjoint st msg reply hwf⟩
  · rw [ChatPage.sendMessage_success sf r hin hld]
    simp [orUndefined, jsStr, hf]
  · rw [ChatPage.sendMessage_success sf r hin hld]
    simp [jsStr, hf]
  · intro sw ow tw hw htw
    exact ChatWidget.widgetSendMessage_sessionId_stable sw ow tw hw htw
  · intro sw jw ow tw hw htw
    exact ChatWidget.widgetTopicSelect_sessionId_stable sw jw ow tw hw htw
  · intro sw rw hwf2 hwin hwld
    exact ChatWidget.widgetSendMessage_fresh sw rw hwf2 hwin hwld
  · intro sl ol tl hl htl
    exact LegacyWidget.legacySendMessage_sessionId_stable sl ol tl hl htl
  · intro sl rl hlf hlin hlld
    exact LegacyWidget.legacySendMessage_fresh sl rl hlf hlin hlld

/-- Witness for C4 at a concrete session, trace, widget states and engine
store. -/
theorem claim4_witness :
    (ChatPage.run ⟨[], "ещё", false, some "sess-1", false, false, "", ""⟩
        [.send .failure]).1.sessionId = some "sess-1" ∧
    (ChatPage.sendMessage ⟨[], "привет", false, none, false, false, "", ""⟩
        (.success ⟨"здравствуйте", "sess-7", 1, false, [], [], false, .answer,
          none⟩)).1.sessionId = some "sess-7" ∧
    (ChatWidget.sendMessage ⟨true, [], "ещё", false, some "sess-2", 0⟩
        .failure).1.sessionId = some "sess-2" ∧
    (LegacyWidget.sendMessage ⟨true, [], "привет", false, none, 0⟩
        (.success ⟨"здравствуйте", "sess-8", 1, false, [], [], false, .answer,
          none⟩)).1.sessionId = some "sess-8" ∧
    ((0 : Nat), ([] : List Engine.Turn)).1 ≠
      (Engine.sendTurn ⟨1, 0, [(0, [])]⟩ none "вопрос" "ответ").2 := by
  have h := claim4_session_token
    ⟨[], "ещё", false, some "sess-1", false, false, "", ""⟩ "sess-1"
    [.send .failure]
    ⟨[], "привет", false, none, false, false, "", ""⟩
    ⟨"здравствуйте", "sess-7", 1, false, [], [], false, .answer, none⟩
    ⟨1, 0, [(0, [])]⟩ "вопрос" "ответ"
    rfl (by decide) rfl (by decide) rfl (by decide)
  exact ⟨h.1, h.2.2.2.1,
         (h.2.2.2.2.1 ⟨true, [], "ещё", false, some "sess-2", 0⟩ .failure
           "sess-2" rfl (by decide)).1,
         (h.2.2.2.2.2.2.2.2.1 ⟨true, [], "привет", false, none, 0⟩
           ⟨"здравствуйте", "sess-8", 1, false, [], [], false, .answer, none⟩
           rfl (by decide) rfl).2,
         h.2.2.2.2.2.2.2.2.2.1 (0, []) (by decide)⟩

/-- C5 (amended): a successful `sendTurn` appends exactly one user turn and one
assistant answer turn in ChatPage; the widgets append exactly one user turn and
one assistant answer turn plus one additional synthetic assistant hint turn
exactly when the response has `needs_escalation` with a non-empty `session_id`
(clarification-aware widget: and `response_type ≠ clarification`). -/
theorem claim5_turns_appended
    (s : ChatPage.State) (sw : ChatWidget.State) (sl : LegacyWidget.State)
    (r : ChatResponse)
    (hp1 : jsTrim s.input ≠ "") (hp2 : s.loading = false)
    (hw1 : jsTrim sw.input ≠ "") (hw2 : sw.loading = false)
    (hl1 : jsTrim sl.input ≠ "") (hl2 : sl.loading = false) :
    (ChatPage.sendMessage s (.success r)).1.messages =
      s.messages ++
        [{ role := .user, content := jsTrim s.input }, ChatPage.botMessageOf r] ∧
    (ChatWidget.sendMessage sw (.success r)).1.messages =
      sw.messages ++
        [{ role := .user, content := jsTrim sw.input }, ChatWidget.botMsgOf r] ++
        (if r.needs_escalation ∧ r.session_id ≠ "" ∧
            r.response_type ≠ .clarification
         then [{ role := .assistant, content := ChatWidget.escalationHintText }]
         else []) ∧
    (LegacyWidget.sendMessage sl (.success r)).1.messages =
      sl.messages ++
        [{ role := .user, content := jsTrim sl.input }, LegacyWidget.botMsgOf r] ++
        (if r.needs_escalation ∧ r.session_id ≠ ""
         then [{ role := .assistant, content := LegacyWidget.escalationHintText }]
         else []) := by
  refine ⟨?_, ?_, ?_⟩
  · rw [ChatPage.sendMessage_success s r hp1 hp2]
  · rw [ChatWidget.widgetSendMessage_success sw r hw1 hw2]
  · rw [LegacyWidget.legacySendMessage_success sl r hl1 hl2]

/-- Witness for C5's amended theorem at concrete states and a concrete
low-confidence answer response. -/
theorem claim5_witness :
    (ChatPage.sendMessage ⟨[], "вопрос", false, some "sess-1", false, false, "", ""⟩
        (.success ⟨"не знаю", "sess-1", 0, true, [], [], false, .answer,
          none⟩)).1.messages =
      [{ role := .user, content := jsTrim "вопрос" },
       ChatPage.botMessageOf ⟨"не знаю", "sess-1", 0, true, [], [], false, .answer,
         none⟩] := by
  have h := claim5_turns_appended
    ⟨[], "вопрос", false, some "sess-1", false, false, "", ""⟩
    ⟨true, [], "вопрос", false, some "sess-1", 0⟩
    ⟨true, [], "вопрос", false, some "sess-1", 0⟩
    ⟨"не знаю", "sess-1", 0, true, [], [], false, .answer, none⟩
    (by decide) rfl (by decide) rfl (by decide) rfl
  simpa using h.1

/-- C5 counterexample: a successful `sendTurn` in the widget with a
`needs_escalation` answer response appends one user turn and two assistant
turns to the displayed transcript, not exactly one of each. -/
theorem claim5_counterexample :
    ((LegacyWidget.sendMessage ⟨true, [], "вопрос", false, some "sess-1", 0⟩
        (.success ⟨"Ответ не найден", "sess-1", 0, true, [], [], false, .answer,
          none⟩)).1.messages.map fun m => m.role) =
      [.user, .assistant, .assistant] := by
  decide

end FBTP

namespace FBTP.OperatorPanel

/-- Unfolding of a failed `loadEscalations` under a truthy token: the token is
dropped from state and from localStorage. -/
theorem loadEscalations_failure (s : State) (h : FBTP.jsStr s.token = true) :
    loadEscalations s .failure =
      ({ s with token := none, storedToken := none, loading := false },
       loadRequest s) := by
  unfold loadEscalations
  rw [if_neg (by simp [h])]

end FBTP.OperatorPanel

namespace FBTP

/-- C6: an authentication failure (401) on a `listEscalations` poll makes the
operator client drop its credential from state and from localStorage, show the
login form again, and issue no further poll request — in particular it never
retries with the stale token. -/
theorem claim6_auth_failure_drops_credential
    (s : OperatorPanel.State) (body : EscalationListBody)
    (h : jsStr s.token = true) :
    (OperatorPanel.pollWith s (.response 401 body)).1.token = none ∧
    (OperatorPanel.pollWith s (.response 401 body)).1.storedToken = none ∧
    OperatorPanel.loginFormShown
      (OperatorPanel.pollWith s (.response 401 body)).1 = true ∧
    OperatorPanel.loadRequest
      (OperatorPanel.pollWith s (.response 401 body)).1 = none ∧
    (∀ out, OperatorPanel.loadEscalations
        (OperatorPanel.pollWith s (.response 401 body)).1 out =
      ((OperatorPanel.pollWith s (.response 401 body)).1, none)) := by
  have hclass : OperatorPanel.pollWith s (.response 401 body) =
      OperatorPanel.loadEscalations s .failure := by
    simp [OperatorPanel.pollWith, ApiClient.getEscalations, resOk]
  rw [hclass, OperatorPanel.loadEscalations_failure s h]
  refine ⟨rfl, rfl, rfl, ?_, ?_⟩
  · simp [OperatorPanel.loadRequest, jsStr]
  · intro out
    unfold OperatorPanel.loadEscalations
    rw [if_pos (by simp [jsStr])]

/-- Witness for C6 at a concrete operator state. -/
theorem claim6_witness :
    (OperatorPanel.pollWith
        ⟨some "tok-1", some "tok-1", "op", "", "", [], 0, none, "", false, "", false⟩
        (.response 401 ⟨[], 0, 0⟩)).1.token = none ∧
    OperatorPanel.loginFormShown
      (OperatorPanel.pollWith
        ⟨some "tok-1", some "tok-1", "op", "", "", [], 0, none, "", false, "", false⟩
        (.response 401 ⟨[], 0, 0⟩)).1 = true := by
  have h := claim6_auth_failure_drops_credential
    ⟨some "tok-1", some "tok-1", "op", "", "", [], 0, none, "", false, "", false⟩
    ⟨[], 0, 0⟩ (by decide)
  exact ⟨h.1, h.2.2.1⟩

/-- C7: the operator panel's polling effect always arms a fixed 15000 ms
interval on mount and on every dependency change (each of which also fires an
immediate on-demand load — the login path changes the dependency key), cancels
the interval when the panel unmounts, and a successful reply triggers an
immediate on-demand refresh. -/
theorem claim7_operator_polling
    (t : OperatorPanel.PollTimer) (s : OperatorPanel.State) (tok u : String)
    (h1 : jsStr s.token = true) (h2 : jsStr s.selectedId = true)
    (h3 : jsTrim s.replyText ≠ "")
    (hlog : s.token ≠ some tok) :
    OperatorPanel.effectStep t .mount = (⟨some 15000⟩, true) ∧
    OperatorPanel.effectStep t .depChange = (⟨some 15000⟩, true) ∧
    OperatorPanel.effectStep t .unmount = (⟨none⟩, false) ∧
    OperatorPanel.depKey (OperatorPanel.handleLogin s (.success tok u)) ≠
      OperatorPanel.depKey s ∧
    (OperatorPanel.handleReply s .success).2 = true := by
  refine ⟨rfl, rfl, rfl, ?_, ?_⟩
  · intro heq
    have := congrArg Prod.fst heq
    simp [OperatorPanel.handleLogin, OperatorPanel.depKey] at this
    exact hlog this.symm
  · unfold OperatorPanel.handleReply
    rw [if_neg (by simp [h1, h2, h3])]

/-- Witness for C7 at a concrete operator state. -/
theorem claim7_witness :
    OperatorPanel.effectStep ⟨none⟩ .mount = (⟨some 15000⟩, true) ∧
    OperatorPanel.effectStep ⟨some 15000⟩ .unmount = (⟨none⟩, false) ∧
    (OperatorPanel.handleReply
      ⟨some "tok-1", some "tok-1", "op", "", "", [], 0, some "esc-1", "Готово",
        false, "", false⟩ .success).2 = true := by
  have h := claim7_operator_polling ⟨none⟩
    ⟨some "tok-1", some "tok-1", "op", "", "", [], 0, some "esc-1", "Готово",
      false, "", false⟩
    "tok-2" "op" (by decide) (by decide) (by decide) (by decide)
  exact ⟨h.1, claim7_operator_polling ⟨some 15000⟩
    ⟨some "tok-1", some "tok-1", "op", "", "", [], 0, some "esc-1", "Готово",
      false, "", false⟩
    "tok-2" "op" (by decide) (by decide) (by decide) (by decide) |>.2.2.1,
    h.2.2.2.2⟩

/-- C8: a clarification turn with an empty (or absent) `suggested_topics` list
renders exactly like the corresponding answer turn with no escalation flag —
no topic buttons, no escalation button — in ChatPage and in the
clarification-aware widget; and a clarification response raises no escalation
trigger (ChatPage's offer panel stays unchanged on both paths, the widget
appends no hint turn). -/
theorem claim8_empty_clarification
    (m : ChatPage.Message) (w : ChatWidget.Message)
    (s : ChatPage.State) (sw : ChatWidget.State) (r : ChatResponse) (j : Nat)
    (hm1 : m.responseType = some .clarification)
    (hm2 : m.suggestedTopics.getD [] = [])
    (hw1 : w.responseType = some .clarification)
    (hw2 : w.suggestedTopics.getD [] = [])
    (hr : r.response_type = .clarification)
    (hin : jsTrim sw.input ≠ "") (hld : sw.loading = false) :
    ChatPage.renderMessage m =
      ChatPage.renderMessage
        { m with responseType := some .answer, needsEscalation := some false } ∧
    ChatWidget.renderMessage w =
      ChatWidget.renderMessage
        { w with responseType := some .answer, needsEscalation := some false } ∧
    (ChatPage.sendMessage s (.success r)).1.showEscalation = s.showEscalation ∧
    (ChatPage.handleTopicSelect s j (.success r)).1.showEscalation =
      s.showEscalation ∧
    (ChatWidget.sendMessage sw (.success r)).1.messages =
      sw.messages ++
        [{ role := .user, content := jsTrim sw.input }, ChatWidget.botMsgOf r] := by
  refine ⟨?_, ?_,
          ChatPage.sendMessage_clarification_showEscalation s r hr,
          ChatPage.handleTopicSelect_clarification_showEscalation s j r hr, ?_⟩
  · simp [ChatPage.renderMessage, hm1, hm2]
  · simp [ChatWidget.renderMessage, ChatWidget.escalationButtonShown, hw1, hw2]
  · rw [ChatWidget.widgetSendMessage_success sw r hin hld]
    simp [hr]

/-- Witness for C8 at a concrete empty-topic clarification message and
response. -/
theorem claim8_witness :
    ChatPage.renderMessage
        { role := .assistant, content := "Уточните тему",
          responseType := some .clarification, suggestedTopics := some [],
          needsEscalation := some true } =
      ChatPage.renderMessage
        { role := .assistant, content := "Уточните тему",
          responseType := some .answer, suggestedTopics := some [],
          needsEscalation := some false } ∧
    (ChatPage.sendMessage ⟨[], "в", false, some "sess-1", false, false, "", ""⟩
        (.success ⟨"Уточните тему", "sess-1", 0, true, [], [], false,
          .clarification, some []⟩)).1.showEscalation = false := by
  have h := claim8_empty_clarification
    { role := .assistant, content := "Уточните тему",
      responseType := some .clarification, suggestedTopics := some [],
      needsEscalation := some true }
    { role := .assistant, content := "Уточните тему",
      responseType := some .clarification, suggestedTopics := some [],
      needsEscalation := some true }
    ⟨[], "в", false, some "sess-1", false, false, "", ""⟩
    ⟨true, [], "в", false, some "sess-1", 0⟩
    ⟨"Уточните тему", "sess-1", 0, true, [], [], false, .clarification, some []⟩
    0 rfl rfl rfl rfl rfl (by decide) rfl
  exact ⟨h.1, h.2.2.1⟩

end FBTP

namespace FBTP

/-- C9 (amended): when a `sendTurn` call fails, each client appends its
synthetic assistant turn to the local display only and issues exactly the one
original request — no automatic retry. ChatPage's synthetic turn apologizes and
suggests contacting the operator; the widgets' synthetic turns apologize and
suggest retrying later without suggesting escalation. -/
theorem claim9_failure_synthetic_turn
    (s : ChatPage.State) (sw : ChatWidget.State) (sl : LegacyWidget.State)
    (hp1 : jsTrim s.input ≠ "") (hp2 : s.loading = false)
    (hw1 : jsTrim sw.input ≠ "") (hw2 : sw.loading = false)
    (hl1 : jsTrim sl.input ≠ "") (hl2 : sl.loading = false) :
    (ChatPage.sendMessage s .failure).1.messages =
      s.messages ++
        [{ role := .user, content := jsTrim s.input },
         { role := .assistant, content := ChatPage.sendErrorText }] ∧
    (ChatPage.sendMessage s .failure).2 =
      [⟨jsTrim s.input, orUndefined s.sessionId⟩] ∧
    mentionsOperator ChatPage.sendErrorText ∧
    (ChatWidget.sendMessage sw .failure).1.messages =
      sw.messages ++
        [{ role := .user, content := jsTrim sw.input },
         { role := .assistant, content := ChatWidget.sendErrorText }] ∧
    (ChatWidget.sendMessage sw .failure).2 =
      [⟨jsTrim sw.input, orUndefined sw.sessionId⟩] ∧
    ¬ mentionsOperator ChatWidget.sendErrorText ∧
    (LegacyWidget.sendMessage sl .failure).1.messages =
      sl.messages ++
        [{ role := .user, content := jsTrim sl.input },
         { role := .assistant, content := LegacyWidget.sendErrorText }] ∧
    (LegacyWidget.sendMessage sl .failure).2 =
      [⟨jsTrim sl.input, orUndefined sl.sessionId⟩] ∧
    ¬ mentionsOperator LegacyWidget.sendErrorText := by
  refine ⟨?_, ?_, by decide, ?_, ?_, by decide, ?_, ?_, by decide⟩
  · rw [ChatPage.sendMessage_failure s hp1 hp2]
  · rw [ChatPage.sendMessage_failure s hp1 hp2]
  · rw [ChatWidget.widgetSendMessage_failure sw hw1 hw2]
  · rw [ChatWidget.widgetSendMessage_failure sw hw1 hw2]
  · rw [LegacyWidget.legacySendMessage_failure sl hl1 hl2]
  · rw [LegacyWidget.legacySendMessage_failure sl hl1 hl2]

/-- Witness for C9's amended theorem at concrete states. -/
theorem claim9_witness :
    (ChatPage.sendMessage ⟨[], "вопрос", false, some "sess-1", false, false, "", ""⟩
        .failure).1.messages =
      [{ role := .user, content := jsTrim "вопрос" },
       { role := .assistant, content := ChatPage.sendErrorText }] ∧
    mentionsOperator ChatPage.sendErrorText := by
  have h := claim9_failure_synthetic_turn
    ⟨[], "вопрос", false, some "sess-1", false, false, "", ""⟩
    ⟨true, [], "вопрос", false, some "sess-1", 0⟩
    ⟨true, [], "вопрос", false, some "sess-1", 0⟩
    (by decide) rfl (by decide) rfl (by decide) rfl
  exact ⟨by simpa using h.1, h.2.2.1⟩

/-- C9 counterexample: the widget's synthetic failure turn ("Ошибка соединения.
Попробуйте позже.") does not suggest escalation — it never mentions the
operator — so the claim's description of the synthetic turn is false for the
widget client cited in its sources. -/
theorem claim9_counterexample :
    (LegacyWidget.sendMessage ⟨true, [], "вопрос", false, some "sess-1", 0⟩
        .failure).1.messages =
      [{ role := .user, content := "вопрос" },
       { role := .assistant, content := "Ошибка соединения. Попробуйте позже." }] ∧
    ¬ mentionsOperator "Ошибка соединения. Попробуйте позже." := by
  constructor
  · decide
  · decide

/-- C10: the operator panel drops its credential and returns to the login form
on every `listEscalations` failure of any kind — any non-2xx status (for
example a 500 server error) and any network failure are treated exactly like an
authentication failure. -/
theorem claim10_any_poll_failure_logs_out
    (s : OperatorPanel.State) (code : Nat) (body : EscalationListBody)
    (hcode : resOk code = false) (h : jsStr s.token = true) :
    ((OperatorPanel.pollWith s (.response code body)).1.token = none ∧
     (OperatorPanel.pollWith s (.response code body)).1.storedToken = none ∧
     OperatorPanel.loginFormShown
       (OperatorPanel.pollWith s (.response code body)).1 = true) ∧
    ((OperatorPanel.pollWith s .networkError).1.token = none ∧
     (OperatorPanel.pollWith s .networkError).1.storedToken = none ∧
     OperatorPanel.loginFormShown
       (OperatorPanel.pollWith s .networkError).1 = true) := by
  have hclass : OperatorPanel.pollWith s (.response code body) =
      OperatorPanel.loadEscalations s .failure := by
    simp [OperatorPanel.pollWith, ApiClient.getEscalations, hcode]
  have hnet : OperatorPanel.pollWith s .networkError =
      OperatorPanel.loadEscalations s .failure := by
    simp [OperatorPanel.pollWith, ApiClient.getEscalations]
  rw [hclass, hnet, OperatorPanel.loadEscalations_failure s h]
  exact ⟨⟨rfl, rfl, rfl⟩, ⟨rfl, rfl, rfl⟩⟩

/-- Witness for C10 at a concrete operator state and a 500 server error. -/
theorem claim10_witness :
    resOk 500 = false ∧
    (OperatorPanel.pollWith
        ⟨some "tok-1", some "tok-1", "op", "", "", [], 0, none, "", false, "", false⟩
        (.response 500 ⟨[], 0, 0⟩)).1.token = none ∧
    (OperatorPanel.pollWith
        ⟨some "tok-1", some "tok-1", "op", "", "", [], 0, none, "", false, "", false⟩
        .networkError).1.token = none := by
  have h := claim10_any_poll_failure_logs_out
    ⟨some "tok-1", some "tok-1", "op", "", "", [], 0, none, "", false, "", false⟩
    500 ⟨[], 0, 0⟩ (by decide) (by decide)
  exact ⟨by decide, h.1.1, h.2.1⟩

end FBTP
